import Mathlib

/-!
Shallow embedding of the account-management backend (src/main.py and
src/backend/schemas.py): signup, login and bearer-token identity resolution
over a single account collection. External collaborators (the passlib
credential hasher, the jose token codec, and the database module that is not
under src) are modelled from the spec, as marked on each definition.
Time is measured in whole seconds.
-/

namespace AuthBackend

/-- Modelled from the spec: the digest domain of the Credential Hasher
(section 4.1; the passlib bcrypt backend is an external collaborator absent
from src). A digest is a salted, algorithm-tagged value; any other value,
including the empty string used as the lookup default in login, is a
malformed digest. The check component stands for the salted recomputation
target embedded in the digest. -/
inductive Digest where
  | bcrypt (salt : Nat) (check : String)
  | malformed (raw : String)
deriving DecidableEq, Repr

/-- Modelled from the spec: hash(plaintext) produces a salted, algorithm-tagged
digest, the salt being drawn fresh by the hasher and passed here explicitly.
Embeds get_password_hash, src/main.py line 53. -/
def get_password_hash (salt : Nat) (password : String) : Digest :=
  Digest.bcrypt salt password

/-- Modelled from the spec: verify recomputes using the salt embedded in the
digest and compares; it returns false on any mismatch or malformed digest and
never raises. Embeds verify_password, src/main.py line 57. -/
def verify_password (plain : String) (password_hash : Digest) : Bool :=
  match password_hash with
  | Digest.bcrypt _ check => plain == check
  | Digest.malformed _ => false

/-- The token-signing secret, src/main.py line 16 (the insecure default of the
environment lookup). -/
def SECRET_KEY : String := "dev-secret-key-change"

/-- The MAC algorithm tag, src/main.py line 17. -/
def ALGORITHM : String := "HS256"

/-- Token validity window in minutes, src/main.py line 18. -/
def ACCESS_TOKEN_EXPIRE_MINUTES : Nat := 60 * 24

/-- Claims carried in a signed token; a lookup of an absent key yields none,
mirroring payload.get in src/main.py lines 72 to 74. -/
structure Claims where
  sub : Option String
  name : Option String
  uid : Option String
  exp : Nat
deriving DecidableEq, Repr

/-- Modelled from the spec: a signed compact token of the Token Codec
(section 4.2; the jose jwt library is an external collaborator absent from
src). The secret and alg fields record what the token was signed with. -/
structure Jwt where
  claims : Claims
  secret : String
  alg : String
deriving DecidableEq, Repr

/-- Modelled from the spec: encode serializes the claims and signs them with
the server-held secret under the given MAC algorithm. -/
def jwt_encode (claims : Claims) (secret : String) (alg : String) : Jwt :=
  { claims := claims, secret := secret, alg := alg }

/-- Modelled from the spec: decode verifies signature and expiry, failing when
the signature or algorithm does not match or the current time is at or after
the embedded expiry (section 4.2). -/
def jwt_decode (t : Jwt) (secret : String) (alg : String) (now : Nat) :
    Option Claims :=
  if t.secret = secret ∧ t.alg = alg ∧ now < t.claims.exp then some t.claims
  else none

/-- The claims dictionary handed to create_access_token by login,
src/main.py line 148. -/
structure TokenData where
  sub : Option String
  name : Option String
  uid : Option String
deriving DecidableEq, Repr

/-- Embeds create_access_token, src/main.py lines 61 to 65: the expiry is the
current time plus the supplied delta, defaulting to
ACCESS_TOKEN_EXPIRE_MINUTES; the result is signed with SECRET_KEY under
ALGORITHM. The delta is in seconds. -/
def create_access_token (data : TokenData) (expires_delta : Option Nat)
    (now : Nat) : Jwt :=
  jwt_encode
    { sub := data.sub, name := data.name, uid := data.uid,
      exp := now + expires_delta.getD (ACCESS_TOKEN_EXPIRE_MINUTES * 60) }
    SECRET_KEY ALGORITHM

/-- An account document of the account collection, per the Account schema in
src/backend/schemas.py lines 13 to 18, plus the store-assigned _id. The
password_hash field is optional so that the defaulted dictionary lookup
user.get in src/main.py line 146 can be modelled over arbitrary documents. -/
structure Doc where
  _id : Nat
  name : String
  email : String
  password_hash : Option Digest
  avatar_url : Option String
  is_active : Bool
deriving DecidableEq, Repr

/-- The account collection of the document store. -/
abbrev Store := List Doc

/-- Modelled from the spec: findByEmail is a case-sensitive exact match limited
to the first match (section 4.3). Embeds the calls
get_documents("account", filter-by-email, limit 1) in src/main.py; the
database module itself is not under src. -/
def get_documents (store : Store) (email : String) : Option Doc :=
  store.find? (fun d => d.email == email)

/-- Modelled from the spec: the fresh identifier the store assigns on insert,
one more than the largest identifier present, hence new and unique. -/
def fresh_id (store : Store) : Nat :=
  store.foldr (fun d m => max (d._id + 1) m) 0

/-- Modelled from the spec: insert assigns and returns a new unique identifier
and does not itself enforce email uniqueness (section 4.3). Embeds
create_document("account", acc) in src/main.py line 134; the database module
itself is not under src. The inserted Account carries the schema defaults
avatar_url none and is_active true. -/
def create_document (store : Store) (name : String) (email : String)
    (password_hash : Digest) : String × Store :=
  let nid := fresh_id store
  (toString nid,
   store ++ [{ _id := nid, name := name, email := email,
               password_hash := some password_hash,
               avatar_url := none, is_active := true }])

/-- An HTTP error as raised by the routes. -/
structure HTTPException where
  status_code : Nat
  detail : String
deriving DecidableEq, Repr

/-- The signup request body, src/main.py lines 34 to 37. -/
structure SignUpBody where
  name : String
  email : String
  password : String
deriving DecidableEq, Repr

/-- The public profile response model, src/main.py lines 45 to 48. -/
structure UserPublic where
  id : String
  name : String
  email : String
deriving DecidableEq, Repr

/-- The login response model, src/main.py lines 40 to 42. -/
structure Token where
  access_token : Jwt
  token_type : String
deriving DecidableEq, Repr

/-- The OAuth2 password form: username carries the email. -/
structure OAuth2PasswordRequestForm where
  username : String
  password : String
deriving DecidableEq, Repr

/-- Embeds signup, src/main.py lines 126 to 135: duplicate check, hash,
persist, public profile. Raising the HTTPException happens before any store
write, so the store comes back unchanged in that branch; the salt the hasher
draws is passed explicitly. -/
def signup (store : Store) (salt : Nat) (body : SignUpBody) :
    Except HTTPException UserPublic × Store :=
  match get_documents store body.email with
  | some _ =>
    (Except.error { status_code := 400, detail := "Email already registered" },
     store)
  | none =>
    let password_hash := get_password_hash salt body.password
    let r := create_document store body.name body.email password_hash
    (Except.ok { id := r.1, name := body.name, email := body.email }, r.2)

/-- Embeds login, src/main.py lines 138 to 149: look up by email, verify the
stored hash, with an absent password_hash field defaulting to the empty
string, a malformed digest; on success issue the signed token with the sub,
name and uid claims drawn from the database row. The parameter now is the
issuance time in seconds. -/
def login (store : Store) (form : OAuth2PasswordRequestForm) (now : Nat) :
    Except HTTPException Token :=
  match get_documents store form.username with
  | none =>
    Except.error { status_code := 400, detail := "Invalid email or password" }
  | some user =>
    if verify_password form.password
        (user.password_hash.getD (Digest.malformed "")) then
      Except.ok
        { access_token :=
            create_access_token
              { sub := some user.email, name := some user.name,
                uid := some (toString user._id) } none now,
          token_type := "bearer" }
    else
      Except.error { status_code := 400, detail := "Invalid email or password" }

/-- The 401 error raised on any token-validation failure, src/main.py
line 69. -/
def credentials_exception : HTTPException :=
  { status_code := 401, detail := "Could not validate credentials" }

/-- Embeds get_current_user, src/main.py lines 68 to 83: decode the token,
require the sub and uid claims to be present, then refetch the account by the
claimed email and build the profile from the database row. -/
def get_current_user (store : Store) (token : Jwt) (now : Nat) :
    Except HTTPException UserPublic :=
  match jwt_decode token SECRET_KEY ALGORITHM now with
  | none => Except.error credentials_exception
  | some payload =>
    match payload.sub, payload.uid with
    | some email, some _ =>
      match get_documents store email with
      | none => Except.error credentials_exception
      | some u =>
        Except.ok { id := toString u._id, name := u.name, email := u.email }
    | some _, none => Except.error credentials_exception
    | none, _ => Except.error credentials_exception

/-- Embeds me, src/main.py lines 152 to 154: the route returns the resolved
current user unchanged. -/
def me (store : Store) (token : Jwt) (now : Nat) :
    Except HTTPException UserPublic :=
  get_current_user store token now

/-- A sample persisted account used to instantiate theorems at concrete
inputs. -/
def annDoc : Doc :=
  { _id := 0, name := "Ann", email := "ann@x.com",
    password_hash := some (Digest.bcrypt 0 "pw123"),
    avatar_url := none, is_active := true }

/-- A sample account whose stored document lacks the password_hash field. -/
def bobDoc : Doc :=
  { _id := 1, name := "Bob", email := "bob@x.com", password_hash := none,
    avatar_url := none, is_active := true }

/-- A sample well-signed token for the sample account. -/
def annToken : Jwt :=
  { claims := { sub := some "ann@x.com", name := some "Ann",
                uid := some "0", exp := 86400 },
    secret := SECRET_KEY, alg := ALGORITHM }

/-- A sample well-signed token whose uid claim does not match the identifier
of the account holding the claimed email. -/
def staleUidToken : Jwt :=
  { claims := { sub := some "ann@x.com", name := some "Ann",
                uid := some "999", exp := 100 },
    secret := SECRET_KEY, alg := ALGORITHM }

/-- The token Login issues for the sample account at time zero. -/
def annLoginToken : Token :=
  { access_token :=
      { claims := { sub := some "ann@x.com", name := some "Ann",
                    uid := some "0", exp := 86400 },
        secret := SECRET_KEY, alg := ALGORITHM },
    token_type := "bearer" }

theorem jwt_decode_some (t : Jwt) (secret alg : String) (now : Nat)
    (c : Claims) (h : jwt_decode t secret alg now = some c) : c = t.claims := by
  unfold jwt_decode at h
  split at h
  · injection h with h
    exact h.symm
  · cases h

theorem get_current_user_ok (store : Store) (token : Jwt) (now : Nat)
    (up : UserPublic) (h : get_current_user store token now = Except.ok up) :
    ∃ e u, token.claims.sub = some e ∧ get_documents store e = some u ∧
      up = { id := toString u._id, name := u.name, email := u.email } := by
  unfold get_current_user at h
  cases hdec : jwt_decode token SECRET_KEY ALGORITHM now with
  | none => rw [hdec] at h; cases h
  | some payload =>
    rw [hdec] at h
    have hpay := jwt_decode_some _ _ _ _ _ hdec
    subst hpay
    cases hsub : token.claims.sub with
    | none => simp only [hsub] at h; cases h
    | some e =>
      cases huid : token.claims.uid with
      | none => simp only [hsub, huid] at h; cases h
      | some u0 =>
        cases hfind : get_documents store e with
        | none => simp only [hsub, huid, hfind] at h; cases h
        | some u =>
          simp only [hsub, huid, hfind] at h
          cases h
          exact ⟨e, u, rfl, hfind, rfl⟩

theorem login_ok (store : Store) (form : OAuth2PasswordRequestForm)
    (now : Nat) (t : Token) (h : login store form now = Except.ok t) :
    ∃ u, get_documents store form.username = some u ∧
      verify_password form.password
        (u.password_hash.getD (Digest.malformed "")) = true ∧
      t = { access_token :=
              jwt_encode
                { sub := some u.email, name := some u.name,
                  uid := some (toString u._id),
                  exp := now + ACCESS_TOKEN_EXPIRE_MINUTES * 60 }
                SECRET_KEY ALGORITHM,
            token_type := "bearer" } := by
  unfold login at h
  cases hfind : get_documents store form.username with
  | none => rw [hfind] at h; cases h
  | some u =>
    simp only [hfind] at h
    split at h
    next hv =>
      cases h
      exact ⟨u, rfl, hv, rfl⟩
    next hv => cases h

theorem get_documents_append (s₁ s₂ : Store) (e : String)
    (h : get_documents s₁ e = none) :
    get_documents (s₁ ++ s₂) e = get_documents s₂ e := by
  unfold get_documents at h ⊢
  rw [List.find?_append, h, Option.none_or]

/-- Claim C1: for every request whose email is not yet registered, Signup
succeeds, and a subsequent Login with the same email and password succeeds and
returns a token whose decoded sub claim equals the submitted email. -/
theorem C1_signup_then_login (store : Store) (salt : Nat) (body : SignUpBody)
    (now : Nat) (h : get_documents store body.email = none) :
    (∃ up, (signup store salt body).1 = Except.ok up) ∧
    ∃ t, login (signup store salt body).2
          { username := body.email, password := body.password } now
        = Except.ok t ∧
      ∃ c, jwt_decode t.access_token SECRET_KEY ALGORITHM now = some c ∧
        c.sub = some body.email := by
  have hs : (signup store salt body).2
      = store ++ [{ _id := fresh_id store, name := body.name,
                    email := body.email,
                    password_hash := some (Digest.bcrypt salt body.password),
                    avatar_url := none, is_active := true }] := by
    simp [signup, h, create_document, get_password_hash]
  refine ⟨⟨{ id := toString (fresh_id store), name := body.name,
             email := body.email }, by simp [signup, h, create_document]⟩, ?_⟩
  have hd : get_documents ((signup store salt body).2) body.email
      = some { _id := fresh_id store, name := body.name, email := body.email,
               password_hash := some (Digest.bcrypt salt body.password),
               avatar_url := none, is_active := true } := by
    rw [hs, get_documents_append _ _ _ h]
    simp [get_documents]
  refine ⟨{ access_token := create_access_token
              { sub := some body.email, name := some body.name,
                uid := some (toString (fresh_id store)) } none now,
            token_type := "bearer" },
          by simp [login, hd, verify_password], ?_⟩
  refine ⟨{ sub := some body.email, name := some body.name,
            uid := some (toString (fresh_id store)),
            exp := now + ACCESS_TOKEN_EXPIRE_MINUTES * 60 }, ?_, rfl⟩
  simp [jwt_decode, create_access_token, jwt_encode, ACCESS_TOKEN_EXPIRE_MINUTES]

/-- Witness for C1 at a concrete input. -/
theorem C1_witness :
    get_documents [] "ann@x.com" = none ∧
    ((∃ up, (signup [] 0
        { name := "Ann", email := "ann@x.com", password := "pw123" }).1
          = Except.ok up) ∧
     ∃ t, login (signup [] 0
            { name := "Ann", email := "ann@x.com", password := "pw123" }).2
            { username := "ann@x.com", password := "pw123" } 0 = Except.ok t ∧
       ∃ c, jwt_decode t.access_token SECRET_KEY ALGORITHM 0 = some c ∧
         c.sub = some "ann@x.com") :=
  ⟨by decide,
   C1_signup_then_login [] 0
     { name := "Ann", email := "ann@x.com", password := "pw123" } 0 (by decide)⟩

/-- Claim C2: login against a nonexistent email and login with a wrong
password for an existing email both fail with status 400 and the message
"Invalid email or password", hence identically. -/
theorem C2_login_failures_indistinguishable
    (s₁ s₂ : Store) (f₁ f₂ : OAuth2PasswordRequestForm) (n₁ n₂ : Nat)
    (h₁ : get_documents s₁ f₁.username = none) (u : Doc)
    (h₂ : get_documents s₂ f₂.username = some u)
    (hv : verify_password f₂.password
        (u.password_hash.getD (Digest.malformed "")) = false) :
    login s₁ f₁ n₁
        = Except.error { status_code := 400,
                         detail := "Invalid email or password" } ∧
    login s₂ f₂ n₂
        = Except.error { status_code := 400,
                         detail := "Invalid email or password" } ∧
    login s₁ f₁ n₁ = login s₂ f₂ n₂ := by
  refine ⟨by simp [login, h₁], by simp [login, h₂, hv],
    by simp [login, h₁, h₂, hv]⟩

/-- Witness for C2 at a concrete input. -/
theorem C2_witness :
    get_documents [] "ghost@x.com" = none ∧
    get_documents [annDoc] "ann@x.com" = some annDoc ∧
    login [] { username := "ghost@x.com", password := "whatever" } 0
      = Except.error { status_code := 400,
                       detail := "Invalid email or password" } ∧
    login [annDoc] { username := "ann@x.com", password := "wrong" } 7
      = Except.error { status_code := 400,
                       detail := "Invalid email or password" } :=
  ⟨by decide, by decide,
   (C2_login_failures_indistinguishable [] [annDoc]
      { username := "ghost@x.com", password := "whatever" }
      { username := "ann@x.com", password := "wrong" } 0 7 (by decide) annDoc
      (by decide) (by decide)).1,
   (C2_login_failures_indistinguishable [] [annDoc]
      { username := "ghost@x.com", password := "whatever" }
      { username := "ann@x.com", password := "wrong" } 0 7 (by decide) annDoc
      (by decide) (by decide)).2.1⟩

/-- Claim C3: Signup with an already-registered email fails with status 400
and the message "Email already registered", and the store is unchanged. -/
theorem C3_signup_duplicate (store : Store) (salt : Nat) (body : SignUpBody)
    (u : Doc) (h : get_documents store body.email = some u) :
    (signup store salt body).1
        = Except.error { status_code := 400,
                         detail := "Email already registered" } ∧
    (signup store salt body).2 = store := by
  simp [signup, h]

/-- Witness for C3 at a concrete input. -/
theorem C3_witness :
    get_documents [annDoc] "ann@x.com" = some annDoc ∧
    (signup [annDoc] 5
        { name := "Ann2", email := "ann@x.com", password := "other" }).1
      = Except.error { status_code := 400,
                       detail := "Email already registered" } ∧
    (signup [annDoc] 5
        { name := "Ann2", email := "ann@x.com", password := "other" }).2
      = [annDoc] :=
  ⟨by decide,
   (C3_signup_duplicate [annDoc] 5
      { name := "Ann2", email := "ann@x.com", password := "other" } annDoc
      (by decide)).1,
   (C3_signup_duplicate [annDoc] 5
      { name := "Ann2", email := "ann@x.com", password := "other" } annDoc
      (by decide)).2⟩

/-- Claim C4: ResolveCurrentUser fails with the 401 credentials error exactly
when decoding fails, the claims lack a subject email or a user id, or no
account with the claimed email currently exists; on success it returns the
public profile built from the freshly fetched database row, not from the
token claims. -/
theorem C4_resolve_current_user_spec (store : Store) (token : Jwt)
    (now : Nat) :
    (get_current_user store token now = Except.error credentials_exception
      ↔ (jwt_decode token SECRET_KEY ALGORITHM now = none
         ∨ token.claims.sub = none ∨ token.claims.uid = none
         ∨ ∃ e, token.claims.sub = some e ∧ get_documents store e = none)) ∧
    (∀ up, get_current_user store token now = Except.ok up →
       ∃ e u, token.claims.sub = some e ∧ get_documents store e = some u ∧
         up = { id := toString u._id, name := u.name, email := u.email }) := by
  refine ⟨?_, fun up h => get_current_user_ok store token now up h⟩
  cases hdec : jwt_decode token SECRET_KEY ALGORITHM now with
  | none => simp [get_current_user, hdec]
  | some payload =>
    have hpay := jwt_decode_some _ _ _ _ _ hdec
    subst hpay
    cases hsub : token.claims.sub with
    | none => simp [get_current_user, hdec, hsub]
    | some e =>
      cases huid : token.claims.uid with
      | none => simp [get_current_user, hdec, hsub, huid]
      | some u0 =>
        cases hfind : get_documents store e with
        | none => simp [get_current_user, hdec, hsub, huid, hfind]
        | some u => simp [get_current_user, hdec, hsub, huid, hfind]

/-- Witness for C4 at a concrete input. -/
theorem C4_witness :
    ∃ e u, annToken.claims.sub = some e ∧
      get_documents [annDoc] e = some u ∧
      ({ id := "0", name := "Ann", email := "ann@x.com" } : UserPublic)
        = { id := toString u._id, name := u.name, email := u.email } :=
  (C4_resolve_current_user_spec [annDoc] annToken 0).2
    { id := "0", name := "Ann", email := "ann@x.com" } (by rfl)

/-- Claim C5: verify is total, returning false on any mismatch and on any
malformed digest rather than raising, and Login against an account whose
stored password_hash is absent or malformed fails with the 400
invalid-credentials error rather than raising. -/
theorem C5_verify_total_login_malformed (plain raw check : String) (salt : Nat)
    (store : Store) (form : OAuth2PasswordRequestForm) (now : Nat) (u : Doc)
    (hne : plain ≠ check)
    (h : get_documents store form.username = some u)
    (hm : u.password_hash = none
          ∨ ∃ r, u.password_hash = some (Digest.malformed r)) :
    verify_password plain (Digest.malformed raw) = false ∧
    verify_password plain (Digest.bcrypt salt check) = false ∧
    login store form now
      = Except.error { status_code := 400,
                       detail := "Invalid email or password" } := by
  refine ⟨rfl, by simp [verify_password, hne], ?_⟩
  rcases hm with hm | ⟨r, hm⟩ <;> simp [login, h, hm, verify_password]

/-- Witness for C5 at a concrete input. -/
theorem C5_witness :
    ("pw" : String) ≠ "other" ∧
    get_documents [bobDoc] "bob@x.com" = some bobDoc ∧
    (bobDoc.password_hash = none
      ∨ ∃ r, bobDoc.password_hash = some (Digest.malformed r)) ∧
    (verify_password "pw" (Digest.malformed "") = false ∧
     verify_password "pw" (Digest.bcrypt 3 "other") = false ∧
     login [bobDoc] { username := "bob@x.com", password := "pw" } 0
       = Except.error { status_code := 400,
                        detail := "Invalid email or password" }) :=
  ⟨by decide, by decide, Or.inl rfl,
   C5_verify_total_login_malformed "pw" "" "other" 3 [bobDoc]
     { username := "bob@x.com", password := "pw" } 0 bobDoc (by decide)
     (by decide) (Or.inl rfl)⟩

/-- Claim C6: a token whose embedded expiry is at or before the time of
decoding fails to decode, and ResolveCurrentUser therefore returns the 401
credentials error, even when the signature is otherwise valid. -/
theorem C6_expired_token_rejected (t : Jwt) (now : Nat) (store : Store)
    (h : t.claims.exp ≤ now) :
    jwt_decode t SECRET_KEY ALGORITHM now = none ∧
    get_current_user store t now = Except.error credentials_exception := by
  have hd : jwt_decode t SECRET_KEY ALGORITHM now = none := by
    have hc : ¬(t.secret = SECRET_KEY ∧ t.alg = ALGORITHM
        ∧ now < t.claims.exp) := by
      rintro ⟨-, -, hlt⟩
      omega
    simp [jwt_decode, hc]
  exact ⟨hd, by simp [get_current_user, hd]⟩

/-- Witness for C6 at a concrete input: the sample token is well signed and
expires at 86400, decoded at 100000. -/
theorem C6_witness :
    annToken.claims.exp ≤ 100000 ∧
    jwt_decode annToken SECRET_KEY ALGORITHM 100000 = none ∧
    get_current_user [annDoc] annToken 100000
      = Except.error credentials_exception :=
  ⟨by decide,
   (C6_expired_token_rejected annToken 100000 [annDoc] (by decide)).1,
   (C6_expired_token_rejected annToken 100000 [annDoc] (by decide)).2⟩

/-- Claim C7: every token issued by Login carries an expiry exactly 24 hours
after the issuance time. -/
theorem C7_login_token_24h_expiry (store : Store)
    (form : OAuth2PasswordRequestForm) (now : Nat) (t : Token)
    (h : login store form now = Except.ok t) :
    t.access_token.claims.exp = now + 24 * 60 * 60 := by
  obtain ⟨u, -, -, ht⟩ := login_ok store form now t h
  subst ht
  simp [jwt_encode, ACCESS_TOKEN_EXPIRE_MINUTES]

/-- Witness for C7 at a concrete input. -/
theorem C7_witness :
    login [annDoc] { username := "ann@x.com", password := "pw123" } 0
      = Except.ok annLoginToken ∧
    annLoginToken.access_token.claims.exp = 0 + 24 * 60 * 60 :=
  ⟨by rfl,
   C7_login_token_24h_expiry [annDoc]
     { username := "ann@x.com", password := "pw123" } 0 annLoginToken
     (by rfl)⟩

/-- Claim C8: responses carry only id, name and email, or the access token
and its bearer type; the claims of an issued token are exactly sub, name,
uid and exp drawn from the database row and the clock; the stored password
hash appears in none of them. -/
theorem C8_no_password_hash_in_responses :
    (∀ store salt body up st2,
       signup store salt body = (Except.ok up, st2) →
       up = { id := toString (fresh_id store), name := body.name,
              email := body.email }) ∧
    (∀ store form now t, login store form now = Except.ok t →
       ∃ u, get_documents store form.username = some u ∧
         t = { access_token :=
                 jwt_encode
                   { sub := some u.email, name := some u.name,
                     uid := some (toString u._id),
                     exp := now + ACCESS_TOKEN_EXPIRE_MINUTES * 60 }
                   SECRET_KEY ALGORITHM,
               token_type := "bearer" }) ∧
    (∀ store token now up, get_current_user store token now = Except.ok up →
       ∃ e u, token.claims.sub = some e ∧ get_documents store e = some u ∧
         up = { id := toString u._id, name := u.name, email := u.email }) := by
  refine ⟨?_, ?_, fun store token now up h =>
    get_current_user_ok store token now up h⟩
  · intro store salt body up st2 h
    unfold signup at h
    cases hfind : get_documents store body.email with
    | some u => rw [hfind] at h; cases h
    | none =>
      simp only [hfind] at h
      have := congrArg Prod.fst h
      simpa [create_document] using this.symm
  · intro store form now t h
    obtain ⟨u, hu, -, ht⟩ := login_ok store form now t h
    exact ⟨u, hu, ht⟩

/-- Witness for C8 at a concrete input. -/
theorem C8_witness :
    signup [] 0 { name := "Ann", email := "ann@x.com", password := "pw123" }
      = (Except.ok { id := "0", name := "Ann", email := "ann@x.com" },
         [annDoc]) ∧
    ({ id := "0", name := "Ann", email := "ann@x.com" } : UserPublic)
      = { id := toString (fresh_id []), name := "Ann",
          email := "ann@x.com" } :=
  ⟨by rfl,
   C8_no_password_hash_in_responses.1 [] 0
     { name := "Ann", email := "ann@x.com", password := "pw123" }
     { id := "0", name := "Ann", email := "ann@x.com" } [annDoc] (by rfl)⟩

/-- Counterexample for C9: the code does not validate the submitted name, so
a signup with an empty name succeeds and the persisted account has an empty
name field. -/
theorem C9_counterexample :
    (signup [] 0 { name := "", email := "e@x.com", password := "pw" }).1
        = Except.ok { id := "0", name := "", email := "e@x.com" } ∧
    (signup [] 0 { name := "", email := "e@x.com", password := "pw" }).2
        = [{ _id := 0, name := "", email := "e@x.com",
             password_hash := some (Digest.bcrypt 0 "pw"),
             avatar_url := none, is_active := true }] ∧
    ¬ ∀ d ∈ (signup [] 0
          { name := "", email := "e@x.com", password := "pw" }).2,
        d.name ≠ "" := by
  refine ⟨rfl, rfl, fun hall => ?_⟩
  exact hall { _id := 0, name := "", email := "e@x.com",
               password_hash := some (Digest.bcrypt 0 "pw"),
               avatar_url := none, is_active := true } (by decide) rfl

/-- Claim C9 amended: every successful signup appends exactly one account
whose name is the submitted name verbatim; nothing validates non-emptiness,
so the stored name is non-empty exactly when the submitted name is. -/
theorem C9_signup_persists_submitted_name (store : Store) (salt : Nat)
    (body : SignUpBody) (up : UserPublic) (st2 : Store)
    (h : signup store salt body = (Except.ok up, st2)) :
    ∃ d, st2 = store ++ [d] ∧ d.name = body.name ∧
      (d.name ≠ "" ↔ body.name ≠ "") := by
  unfold signup at h
  cases hfind : get_documents store body.email with
  | some u => rw [hfind] at h; cases h
  | none =>
    simp only [hfind] at h
    have h2 := congrArg Prod.snd h
    refine ⟨{ _id := fresh_id store, name := body.name, email := body.email,
              password_hash := some (get_password_hash salt body.password),
              avatar_url := none, is_active := true }, ?_, rfl, Iff.rfl⟩
    simpa [create_document, get_password_hash] using h2.symm

/-- Witness for the amended C9 at a concrete input. -/
theorem C9_witness :
    signup [] 4 { name := "Ann", email := "ann2@x.com", password := "pw" }
      = (Except.ok { id := "0", name := "Ann", email := "ann2@x.com" },
         [{ _id := 0, name := "Ann", email := "ann2@x.com",
            password_hash := some (Digest.bcrypt 4 "pw"),
            avatar_url := none, is_active := true }]) ∧
    ∃ d, ([{ _id := 0, name := "Ann", email := "ann2@x.com",
             password_hash := some (Digest.bcrypt 4 "pw"),
             avatar_url := none, is_active := true }] : Store)
          = [] ++ [d] ∧ d.name = "Ann" ∧ (d.name ≠ "" ↔ ("Ann" : String) ≠ "") :=
  ⟨by rfl,
   C9_signup_persists_submitted_name [] 4
     { name := "Ann", email := "ann2@x.com", password := "pw" }
     { id := "0", name := "Ann", email := "ann2@x.com" }
     [{ _id := 0, name := "Ann", email := "ann2@x.com",
        password_hash := some (Digest.bcrypt 4 "pw"),
        avatar_url := none, is_active := true }] (by rfl)⟩

/-- Claim C10: resolution goes by the email claim alone; the uid claim is
only checked for presence, so a valid unexpired token whose uid differs from
the identifier of the account currently holding the claimed email still
resolves, returning that account with its current identifier. -/
theorem C10_uid_not_compared (store : Store) (token : Jwt) (now : Nat)
    (e u0 : String) (a : Doc)
    (hsec : token.secret = SECRET_KEY) (halg : token.alg = ALGORITHM)
    (hexp : now < token.claims.exp)
    (hsub : token.claims.sub = some e) (huid : token.claims.uid = some u0)
    (hne : u0 ≠ toString a._id)
    (ha : get_documents store e = some a) :
    get_current_user store token now
      = Except.ok { id := toString a._id, name := a.name,
                    email := a.email } := by
  have hd : jwt_decode token SECRET_KEY ALGORITHM now = some token.claims := by
    simp [jwt_decode, hsec, halg, hexp]
  simp [get_current_user, hd, hsub, huid, ha]

/-- Witness for C10 at a concrete input: the token carries uid 999 while the
account holding the claimed email has identifier 0. -/
theorem C10_witness :
    staleUidToken.claims.uid = some "999" ∧
    ("999" : String) ≠ toString annDoc._id ∧
    get_current_user [annDoc] staleUidToken 0
      = Except.ok { id := toString annDoc._id, name := annDoc.name,
                    email := annDoc.email } :=
  ⟨rfl, by decide,
   C10_uid_not_compared [annDoc] staleUidToken 0 "ann@x.com" "999" annDoc
     rfl rfl (by decide) rfl rfl (by decide) (by decide)⟩

end AuthBackend
